import Mathlib

/-!
Verification of the service event dispatcher in
src/ethcore/service/src/service.rs (ClientService and ClientIoHandler).

The Rust source is shallowly embedded: each dispatcher entry point becomes a
Lean function from an environment of subsystem outcomes to the list of
observable events it performs (subsystem calls, log lines, thread spawns), and
the orchestrator start becomes a function from an environment of step outcomes
to a trace of startup steps plus a result.
-/

namespace ParityService

/-- Raw byte payloads are modelled as lists of naturals. -/
abbrev Bytes := List Nat

/-- A 256-bit hash, modelled as a natural number. -/
abbrev H256 := Nat

/-- Result of a fallible Rust call, with a string rendering of the error. -/
inductive RustResult (A : Type) where
  | ok (a : A)
  | err (e : String)
  deriving DecidableEq, Repr

/-- Modelled from the spec: the restoration manifest carried by the
BeginRestoration message (the concrete type lives in ethcore, outside src). -/
structure ManifestData where
  stateHashes : List H256
  blockHashes : List H256
  blockNumber : Nat
  deriving DecidableEq, Repr

/-- Modelled from the spec: the snapshot subsystem status, with an Ongoing
state for an in-flight restoration (type lives in ethcore, outside src). -/
inductive RestorationStatus where
  | Inactive
  | Ongoing (stateChunksDone : Nat) (blockChunksDone : Nat)
  | Failed
  deriving DecidableEq, Repr

/-- True exactly on the Ongoing state, mirroring the if-let test in
ClientIoHandler timeout. -/
def RestorationStatus.isOngoing : RestorationStatus → Bool
  | .Ongoing _ _ => true
  | _ => false

/-- The inbound message union ClientIoMessage. The eight tags handled by the
dispatcher are embedded with their payloads; the catch-all constructor
otherTag stands for every further variant of the ethcore enum, which the
dispatcher matches with a wildcard arm. -/
inductive ClientIoMessage where
  | BlockVerified
  | NewTransactions (transactions : List Bytes) (peerId : Nat)
  | BeginRestoration (manifest : ManifestData)
  | FeedStateChunk (hash : H256) (chunk : Bytes)
  | FeedBlockChunk (hash : H256) (chunk : Bytes)
  | TakeSnapshot (num : Nat)
  | NewMessage (message : Bytes)
  | NewPrivateTransaction
  | otherTag (tag : Nat)
  deriving DecidableEq, Repr

/-- A call into one of the subsystem handles held by the dispatcher. -/
inductive SubsystemCall where
  | importVerifiedBlocks
  | importQueuedTransactions (transactions : List Bytes) (peerId : Nat)
  | initRestore (manifest : ManifestData) (force : Bool)
  | feedStateChunk (hash : H256) (chunk : Bytes)
  | feedBlockChunk (hash : H256) (chunk : Bytes)
  | takeSnapshot (num : Nat)
  | engineHandleMessage (message : Bytes)
  | onPrivateTransactionQueued
  | snapshotStatusQuery
  | clientTick (duringRestoration : Bool)
  | snapshotTick
  deriving DecidableEq, Repr

/-- Which thread an event happens on: the dispatcher callback thread, or the
background thread spawned for snapshot capture. -/
inductive ExecMode where
  | dispatcherThread
  | spawnedThread
  deriving DecidableEq, Repr

/-- Log severity levels used by the dispatcher. -/
inductive LogLevel where
  | warn
  | trace
  | debugLvl
  deriving DecidableEq, Repr

/-- An observable action of the dispatcher: a subsystem call, a thread spawn,
or a log line. The dispatcher never returns or raises an error value. -/
inductive Event where
  | call (mode : ExecMode) (op : SubsystemCall)
  | spawnThread (threadName : String)
  | log (mode : ExecMode) (lvl : LogLevel) (text : String)
  deriving DecidableEq, Repr

/-- Environment for one event delivery: the snapshot status and the outcome
each fallible subsystem operation (and the thread spawn) would report if
invoked. -/
structure SubsystemEnv where
  snapshotStatus : RestorationStatus
  initRestoreResult : RustResult Unit
  spawnResult : RustResult Unit
  takeSnapshotResult : RustResult Unit
  handleMessageResult : RustResult Unit
  privateTxResult : RustResult Unit
  deriving DecidableEq, Repr

/-- Embedding of ClientIoHandler message: dispatch on the message tag,
performing the subsystem call of that arm and logging (never propagating)
any error the call reports. The TakeSnapshot arm spawns a thread named
Periodic Snapshot and runs the capture there; a spawn failure is logged at
debug level on the dispatcher thread. The wildcard arm does nothing. -/
def message (env : SubsystemEnv) (netMessage : ClientIoMessage) : List Event :=
  match netMessage with
  | .BlockVerified => [.call .dispatcherThread .importVerifiedBlocks]
  | .NewTransactions transactions peerId =>
      [.call .dispatcherThread (.importQueuedTransactions transactions peerId)]
  | .BeginRestoration manifest =>
      .call .dispatcherThread (.initRestore manifest true) ::
      (match env.initRestoreResult with
       | .ok _ => []
       | .err e =>
           [.log .dispatcherThread .warn
             ("Failed to initialize snapshot restoration: " ++ e)])
  | .FeedStateChunk hash chunk =>
      [.call .dispatcherThread (.feedStateChunk hash chunk)]
  | .FeedBlockChunk hash chunk =>
      [.call .dispatcherThread (.feedBlockChunk hash chunk)]
  | .TakeSnapshot num =>
      (match env.spawnResult with
       | .ok _ =>
           .spawnThread "Periodic Snapshot" ::
           .call .spawnedThread (.takeSnapshot num) ::
           (match env.takeSnapshotResult with
            | .ok _ => []
            | .err e =>
                [.log .spawnedThread .warn ("Failed to take snapshot: " ++ e)])
       | .err e =>
           [.log .dispatcherThread .debugLvl
             ("Failed to initialize periodic snapshot thread: " ++ e)])
  | .NewMessage m =>
      .call .dispatcherThread (.engineHandleMessage m) ::
      (match env.handleMessageResult with
       | .ok _ => []
       | .err e => [.log .dispatcherThread .trace ("Invalid message received: " ++ e)])
  | .NewPrivateTransaction =>
      .call .dispatcherThread .onPrivateTransactionQueued ::
      (match env.privateTxResult with
       | .ok _ => []
       | .err e =>
           [.log .dispatcherThread .warn ("Failed to handle private transaction: " ++ e)])
  | .otherTag _ => []

/-- The timer token constant CLIENT_TICK_TIMER. -/
def CLIENT_TICK_TIMER : Nat := 0

/-- The timer token constant SNAPSHOT_TICK_TIMER. -/
def SNAPSHOT_TICK_TIMER : Nat := 1

/-- The timer period constant CLIENT_TICK_MS. -/
def CLIENT_TICK_MS : Nat := 5000

/-- The timer period constant SNAPSHOT_TICK_MS. -/
def SNAPSHOT_TICK_MS : Nat := 10000

/-- Embedding of ClientIoHandler timeout: dispatch on the timer token. The
client tick queries the snapshot status and ticks the client with the
restoration flag; the snapshot tick ticks the snapshot service; any other
token only logs a warning. -/
def timeout (env : SubsystemEnv) (timer : Nat) : List Event :=
  if timer = CLIENT_TICK_TIMER then
    [.call .dispatcherThread .snapshotStatusQuery,
     .call .dispatcherThread (.clientTick env.snapshotStatus.isOngoing)]
  else if timer = SNAPSHOT_TICK_TIMER then
    [.call .dispatcherThread .snapshotTick]
  else
    [.log .dispatcherThread .warn "IO service triggered unregistered timer"]

/-- Outcome of running the dispatcher initialization: the timers registered so
far, paired with the panic message of the expect call if a registration
failed. -/
structure InitOutcome where
  registered : List (Nat × Nat)
  panicMsg : Option String
  deriving DecidableEq, Repr

/-- Embedding of ClientIoHandler initialization: register the client tick
timer, then the snapshot tick timer; each registration result goes through
expect, so a failure panics with the corresponding message and later
registrations do not run. -/
def initTimers (regClient regSnapshot : RustResult Unit) : InitOutcome :=
  match regClient with
  | .err _ => { registered := [], panicMsg := some "Error registering client timer" }
  | .ok _ =>
      match regSnapshot with
      | .err _ =>
          { registered := [(CLIENT_TICK_TIMER, CLIENT_TICK_MS)],
            panicMsg := some "Error registering snapshot timer" }
      | .ok _ =>
          { registered := [(CLIENT_TICK_TIMER, CLIENT_TICK_MS),
                           (SNAPSHOT_TICK_TIMER, SNAPSHOT_TICK_MS)],
            panicMsg := none }

/-- Project the subsystem calls (with their thread) out of an event list. -/
def callsOf (events : List Event) : List (ExecMode × SubsystemCall) :=
  events.filterMap fun ev =>
    match ev with
    | .call mode op => some (mode, op)
    | _ => none

/-- Project the log levels out of an event list. -/
def logLevelsOf (events : List Event) : List LogLevel :=
  events.filterMap fun ev =>
    match ev with
    | .log _ lvl _ => some lvl
    | _ => none

/-- Deliver a list of inbound messages in order; the dispatcher handles each
one to completion and moves on to the next. -/
def runMessages (env : SubsystemEnv) (ms : List ClientIoMessage) : List Event :=
  match ms with
  | [] => []
  | m :: rest => message env m ++ runMessages env rest

/-- A filesystem path, modelled by its optional UTF-8 string rendering: the
to_str conversion on a Rust path yields none exactly when the path bytes are
not representable as UTF-8. -/
structure RustPath where
  utf8 : Option String
  deriving DecidableEq, Repr

/-- Modelled from the spec: the compaction profile selector carried in the
client configuration (the concrete type lives in ethcore, outside src). -/
inductive CompactionKind where
  | auto
  | ssd
  | hdd
  deriving DecidableEq, Repr

/-- A derived compaction profile: the configured kind specialized at a path,
embedding the call of compaction_profile on client_path. -/
structure CompactionProfile where
  kind : CompactionKind
  path : RustPath
  deriving DecidableEq, Repr

/-- The fields of ClientConfig that start reads: the database cache size, the
compaction selector, the write-ahead-log flag and the pruning mode. -/
structure ClientConfig where
  dbCacheSize : Option Nat
  dbCompaction : CompactionKind
  dbWal : Bool
  pruning : Nat
  deriving DecidableEq, Repr

/-- Modelled from the spec: the fixed column count of the subsystem schema
(db NUM_COLUMNS lives in ethcore, outside src; its exact value is immaterial
here, only that the store configuration copies it). -/
def NUM_COLUMNS : Option Nat := some 8

/-- The store configuration DatabaseConfig as built by start. -/
structure DatabaseConfig where
  columns : Option Nat
  memoryBudget : Option Nat
  compaction : CompactionProfile
  wal : Bool
  deriving DecidableEq, Repr

/-- The store configuration derived in start: with_columns of NUM_COLUMNS,
then memory budget from the config cache size, compaction profile derived
from the config at client_path, and the write-ahead-log flag from the
config. -/
def dbConfigOf (config : ClientConfig) (clientPath : RustPath) : DatabaseConfig :=
  { columns := NUM_COLUMNS
    memoryBudget := config.dbCacheSize
    compaction := { kind := config.dbCompaction, path := clientPath }
    wal := config.dbWal }

/-- Modelled from the spec: the typed error returned by start, one constructor
per failing collaborator (the Error enum lives at the crate root, outside
src). -/
inductive ServiceError where
  | Runtime (e : String)
  | Database (e : String)
  | Client (e : String)
  | Snapshot (e : String)
  | PrivateTransactions (e : String)
  deriving DecidableEq, Repr

/-- The fields of the ClientService aggregate, listed in the declaration
order of the Rust struct: io_service, client, snapshot, private_tx, database,
_stop_guard. -/
inductive ServiceField where
  | ioService
  | client
  | snapshot
  | privateTx
  | database
  | stopGuard
  deriving DecidableEq, Repr

/-- The declaration order of the ClientService fields. Rust drops struct
fields in declaration order. -/
def clientServiceFieldOrder : List ServiceField :=
  [.ioService, .client, .snapshot, .privateTx, .database, .stopGuard]

/-- The aggregate returned by a successful start, recording the store
configuration and path it opened the store with. -/
structure ClientServiceModel where
  dbConfig : DatabaseConfig
  dbPath : String
  deriving DecidableEq, Repr

/-- Whether a registered reference is owning (strong) or non-owning (weak,
produced by downgrade). -/
inductive RefKind where
  | strong
  | weak
  deriving DecidableEq, Repr

/-- One step performed by start, in the order the source performs them. -/
inductive StartStep where
  | startRuntime
  | openStore (cfg : DatabaseConfig) (path : String)
  | constructClient
  | constructSnapshot
  | constructPrivateTx
  | buildDispatcher
  | registerDispatcher
  | registerEngineClientRef (kind : RefKind)
  | armStopGuard
  deriving DecidableEq, Repr

/-- Result of start: the expect on the path conversion panics, every other
failure is returned as a typed error, and success carries the aggregate. -/
inductive StartResult where
  | panicked (msg : String)
  | failed (e : ServiceError)
  | ok (svc : ClientServiceModel)
  deriving DecidableEq, Repr

/-- Environment for one run of start: the outcome each fallible step would
report when reached. -/
structure StartEnv where
  ioServiceStart : RustResult Unit
  databaseOpen : RustResult Unit
  clientNew : RustResult Unit
  snapshotNew : RustResult Unit
  privateTxNew : RustResult Unit
  registerHandler : RustResult Unit
  deriving DecidableEq, Repr

/-- Outcome of start: the steps attempted in order, the result, and the
resources dropped on a failing or panicking path, in the order Rust drops
local variables (reverse construction order). On success the list is empty
because ownership of every resource moves into the aggregate. -/
structure StartOutcome where
  trace : List StartStep
  result : StartResult
  releasedOnFailure : List ServiceField
  deriving DecidableEq, Repr

/-- Embedding of ClientService start. Steps in source order: start the IO
service; derive the store configuration and open the store at client_path
(panicking via expect if the path is not UTF-8, and wrapping an open failure
in the Database error constructor); construct the client, the snapshot
service and the private transactions provider; build the ClientIoHandler and
register it; register the downgraded client reference with the engine; arm
the stop guard; return the aggregate. Each fallible step short-circuits with
its typed error. -/
def start (env : StartEnv) (config : ClientConfig) (clientPath : RustPath) :
    StartOutcome :=
  match env.ioServiceStart with
  | .err e =>
      { trace := [.startRuntime], result := .failed (.Runtime e),
        releasedOnFailure := [] }
  | .ok _ =>
      let dbConfig := dbConfigOf config clientPath
      match clientPath.utf8 with
      | none =>
          { trace := [.startRuntime],
            result := .panicked "DB path could not be converted to string.",
            releasedOnFailure := [.ioService] }
      | some pathStr =>
          match env.databaseOpen with
          | .err e =>
              { trace := [.startRuntime, .openStore dbConfig pathStr],
                result := .failed (.Database e),
                releasedOnFailure := [.ioService] }
          | .ok _ =>
              match env.clientNew with
              | .err e =>
                  { trace := [.startRuntime, .openStore dbConfig pathStr,
                              .constructClient],
                    result := .failed (.Client e),
                    releasedOnFailure := [.database, .ioService] }
              | .ok _ =>
                  match env.snapshotNew with
                  | .err e =>
                      { trace := [.startRuntime, .openStore dbConfig pathStr,
                                  .constructClient, .constructSnapshot],
                        result := .failed (.Snapshot e),
                        releasedOnFailure := [.client, .database, .ioService] }
                  | .ok _ =>
                      match env.privateTxNew with
                      | .err e =>
                          { trace := [.startRuntime, .openStore dbConfig pathStr,
                                      .constructClient, .constructSnapshot,
                                      .constructPrivateTx],
                            result := .failed (.PrivateTransactions e),
                            releasedOnFailure :=
                              [.snapshot, .client, .database, .ioService] }
                      | .ok _ =>
                          match env.registerHandler with
                          | .err e =>
                              { trace := [.startRuntime, .openStore dbConfig pathStr,
                                          .constructClient, .constructSnapshot,
                                          .constructPrivateTx, .buildDispatcher,
                                          .registerDispatcher],
                                result := .failed (.Runtime e),
                                releasedOnFailure :=
                                  [.privateTx, .snapshot, .client, .database,
                                   .ioService] }
                          | .ok _ =>
                              { trace := [.startRuntime, .openStore dbConfig pathStr,
                                          .constructClient, .constructSnapshot,
                                          .constructPrivateTx, .buildDispatcher,
                                          .registerDispatcher,
                                          .registerEngineClientRef .weak,
                                          .armStopGuard],
                                result := .ok { dbConfig := dbConfig,
                                                dbPath := pathStr },
                                releasedOnFailure := [] }

/-- All fallible steps of start succeed. -/
def StartEnv.allOk (env : StartEnv) : Prop :=
  env.ioServiceStart = .ok () ∧ env.databaseOpen = .ok () ∧
  env.clientNew = .ok () ∧ env.snapshotNew = .ok () ∧
  env.privateTxNew = .ok () ∧ env.registerHandler = .ok ()

instance (env : StartEnv) : Decidable env.allOk := by
  unfold StartEnv.allOk
  infer_instance

/-- An observable action during teardown of the aggregate. -/
inductive TeardownEvent where
  | runtimeStopped
  | released (f : ServiceField)
  | stopFlagSet (observers : List String)
  deriving DecidableEq, Repr

/-- Modelled from the stop_guard crate surface used by the source: the guard
holds a fresh atomic flag that only handles obtained through share can
observe; start stores the guard created by new and never calls share, so the
set of observers of its flag is empty. -/
def stopGuardObservers : List String := []

/-- What dropping one aggregate field does. Dropping the io_service handle
stops the runtime (the IoService drop joins the event loop, which also
releases the registered dispatcher). Dropping the stop guard sets its flag,
seen only by its observers. Dropping any other field releases the
corresponding shared subsystem reference held by the aggregate. -/
def dropEffect : ServiceField → List TeardownEvent
  | .ioService => [.runtimeStopped]
  | .stopGuard => [.stopFlagSet stopGuardObservers]
  | f => [.released f]

/-- The teardown trace of the aggregate: the fields drop in declaration
order, each producing its drop effects. -/
def dropTrace : List TeardownEvent :=
  (clientServiceFieldOrder.map dropEffect).flatten

/-- The holders of references to the client handle after a successful start. -/
inductive Holder where
  | aggregate
  | dispatcher
  | snapshotDbRestore
  | privateTxProvider
  | engine
  deriving DecidableEq, Repr

/-- The references to the client created during start, read off the source:
clones of the Arc go to the aggregate, the dispatcher, the snapshot service
restore field and the private transactions provider, while the engine
receives only the downgraded reference. -/
def clientRefs : List (Holder × RefKind) :=
  [(.aggregate, .strong), (.dispatcher, .strong), (.snapshotDbRestore, .strong),
   (.privateTxProvider, .strong), (.engine, .weak)]

/-- A set of references keeps the client alive exactly when it contains a
strong one. -/
def keepsAlive (refs : List (Holder × RefKind)) : Bool :=
  refs.any fun r => r.2 == .strong

/-! Concrete environments used by the witnesses. -/

/-- An environment in which every subsystem operation succeeds. -/
def envAllOk : SubsystemEnv :=
  { snapshotStatus := .Inactive, initRestoreResult := .ok (), spawnResult := .ok (),
    takeSnapshotResult := .ok (), handleMessageResult := .ok (),
    privateTxResult := .ok () }

/-- An environment in which every subsystem operation fails. -/
def envAllFail : SubsystemEnv :=
  { snapshotStatus := .Ongoing 1 2, initRestoreResult := .err "restore boom",
    spawnResult := .err "exhausted", takeSnapshotResult := .err "capture boom",
    handleMessageResult := .err "bad message",
    privateTxResult := .err "private boom" }

/-- An environment in which the thread spawn succeeds but the capture fails. -/
def envCaptureFail : SubsystemEnv :=
  { snapshotStatus := .Inactive, initRestoreResult := .ok (), spawnResult := .ok (),
    takeSnapshotResult := .err "capture boom", handleMessageResult := .ok (),
    privateTxResult := .ok () }

/-- A manifest used by the witnesses. -/
def manW : ManifestData := { stateHashes := [1], blockHashes := [2], blockNumber := 3 }

/-- Claim C1: the message dispatcher performs exactly the action of the tag
table: BlockVerified imports verified blocks, NewTransactions imports the
given transactions for the given peer, BeginRestoration initializes
restoration with force true, FeedStateChunk and FeedBlockChunk feed the given
hash and chunk to the state and block chunk operations, TakeSnapshot spawns a
background thread that runs the capture at the given number (never on the
dispatcher thread), NewMessage forwards to the engine message handler,
NewPrivateTransaction notifies the private transaction provider, and every
other tag has no effect at all. -/
theorem C1_message_dispatch (env : SubsystemEnv) (txs : List Bytes) (peerId : Nat)
    (man : ManifestData) (h : H256) (c : Bytes) (num : Nat) (payload : Bytes)
    (tag : Nat) :
    message env .BlockVerified = [.call .dispatcherThread .importVerifiedBlocks]
    ∧ message env (.NewTransactions txs peerId)
        = [.call .dispatcherThread (.importQueuedTransactions txs peerId)]
    ∧ callsOf (message env (.BeginRestoration man))
        = [(.dispatcherThread, .initRestore man true)]
    ∧ message env (.FeedStateChunk h c)
        = [.call .dispatcherThread (.feedStateChunk h c)]
    ∧ message env (.FeedBlockChunk h c)
        = [.call .dispatcherThread (.feedBlockChunk h c)]
    ∧ callsOf (message env (.TakeSnapshot num))
        = (match env.spawnResult with
           | .ok _ => [(.spawnedThread, .takeSnapshot num)]
           | .err _ => [])
    ∧ (env.spawnResult = .ok () →
        (message env (.TakeSnapshot num)).head?
          = some (.spawnThread "Periodic Snapshot"))
    ∧ callsOf (message env (.NewMessage payload))
        = [(.dispatcherThread, .engineHandleMessage payload)]
    ∧ callsOf (message env .NewPrivateTransaction)
        = [(.dispatcherThread, .onPrivateTransactionQueued)]
    ∧ message env (.otherTag tag) = [] := by
  refine ⟨rfl, rfl, ?_, rfl, rfl, ?_, ?_, ?_, ?_, rfl⟩
  · cases hr : env.initRestoreResult <;> simp [message, callsOf, hr]
  · cases hs : env.spawnResult <;> cases ht : env.takeSnapshotResult <;>
      simp [message, callsOf, hs, ht]
  · intro hs
    cases ht : env.takeSnapshotResult <;> simp [message, hs, ht]
  · cases hm : env.handleMessageResult <;> simp [message, callsOf, hm]
  · cases hp : env.privateTxResult <;> simp [message, callsOf, hp]

/-- Witness for C1 at a concrete environment and payloads. -/
theorem C1_message_dispatch_witness :
    (message envAllOk (.TakeSnapshot 7)).head?
      = some (.spawnThread "Periodic Snapshot") :=
  (C1_message_dispatch envAllOk [[4]] 9 manW 5 [6] 7 [8] 42).2.2.2.2.2.2.1 rfl

/-- Claim C2: the timeout dispatcher, on the client tick token, queries the
snapshot status and ticks the client with true exactly when that status is an
ongoing restoration; on the snapshot tick token it ticks the snapshot
service; on any other token it only logs a warning and performs no subsystem
call. -/
theorem C2_timeout_dispatch (env : SubsystemEnv) :
    timeout env CLIENT_TICK_TIMER
      = [.call .dispatcherThread .snapshotStatusQuery,
         .call .dispatcherThread (.clientTick env.snapshotStatus.isOngoing)]
    ∧ (env.snapshotStatus.isOngoing = true ↔
        ∃ a b, env.snapshotStatus = .Ongoing a b)
    ∧ timeout env SNAPSHOT_TICK_TIMER = [.call .dispatcherThread .snapshotTick]
    ∧ (∀ t, t ≠ CLIENT_TICK_TIMER → t ≠ SNAPSHOT_TICK_TIMER →
        timeout env t
          = [.log .dispatcherThread .warn "IO service triggered unregistered timer"]
        ∧ callsOf (timeout env t) = []) := by
  refine ⟨by simp [timeout], ?_, by simp [timeout, CLIENT_TICK_TIMER, SNAPSHOT_TICK_TIMER], ?_⟩
  · cases s : env.snapshotStatus <;> simp [RestorationStatus.isOngoing]
  · intro t ht0 ht1
    unfold timeout
    rw [if_neg ht0, if_neg ht1]
    exact ⟨rfl, rfl⟩

/-- Witness for C2 at a concrete environment and an unregistered token. -/
theorem C2_timeout_dispatch_witness :
    callsOf (timeout envAllOk 5) = [] :=
  ((C2_timeout_dispatch envAllOk).2.2.2 5 (by decide) (by decide)).2

/-- Counterexample to C3 as stated: when the spawn of the snapshot capture
thread fails, the dispatcher logs at debug level, not at warn level. -/
theorem C3_counterexample :
    logLevelsOf (message envAllFail (.TakeSnapshot 0)) = [.debugLvl]
    ∧ LogLevel.warn ∉ logLevelsOf (message envAllFail (.TakeSnapshot 0)) := by
  decide

/-- Claim C3 as amended: errors in subsystem calls are never propagated out
of the dispatcher; restoration initialization failures are logged at warn,
spawn failures at debug (with no capture call performed), capture failures in
the spawned task at warn, message handler rejections at trace, private
transaction failures at warn; and the dispatcher goes on to serve the
subsequent messages unchanged. -/
theorem C3_amended_error_isolation (env : SubsystemEnv) (m : ClientIoMessage)
    (rest : List ClientIoMessage) (man : ManifestData) (num : Nat)
    (payload : Bytes) (e : String) :
    runMessages env (m :: rest) = message env m ++ runMessages env rest
    ∧ (env.initRestoreResult = .err e →
        logLevelsOf (message env (.BeginRestoration man)) = [.warn])
    ∧ (env.spawnResult = .err e →
        logLevelsOf (message env (.TakeSnapshot num)) = [.debugLvl]
        ∧ callsOf (message env (.TakeSnapshot num)) = [])
    ∧ (env.spawnResult = .ok () → env.takeSnapshotResult = .err e →
        logLevelsOf (message env (.TakeSnapshot num)) = [.warn])
    ∧ (env.handleMessageResult = .err e →
        logLevelsOf (message env (.NewMessage payload)) = [.trace])
    ∧ (env.privateTxResult = .err e →
        logLevelsOf (message env .NewPrivateTransaction) = [.warn]) := by
  refine ⟨rfl, ?_, ?_, ?_, ?_, ?_⟩
  · intro hr; simp [message, logLevelsOf, hr]
  · intro hs; simp [message, logLevelsOf, callsOf, hs]
  · intro hs ht; simp [message, logLevelsOf, hs, ht]
  · intro hm; simp [message, logLevelsOf, hm]
  · intro hp; simp [message, logLevelsOf, hp]

/-- Witness for the amended C3 at concrete environments. -/
theorem C3_amended_error_isolation_witness :
    logLevelsOf (message envAllFail (.BeginRestoration manW)) = [.warn]
    ∧ logLevelsOf (message envCaptureFail (.TakeSnapshot 3)) = [.warn] :=
  ⟨(C3_amended_error_isolation envAllFail .BlockVerified [] manW 3 [] "restore boom").2.1 rfl,
   (C3_amended_error_isolation envCaptureFail .BlockVerified [] manW 3 [] "capture boom").2.2.2.1 rfl rfl⟩

/-- A start environment in which every step succeeds. -/
def startEnvOk : StartEnv :=
  { ioServiceStart := .ok (), databaseOpen := .ok (), clientNew := .ok (),
    snapshotNew := .ok (), privateTxNew := .ok (), registerHandler := .ok () }

/-- A start environment in which opening the store fails. -/
def startEnvDbFail : StartEnv :=
  { ioServiceStart := .ok (), databaseOpen := .err "open boom", clientNew := .ok (),
    snapshotNew := .ok (), privateTxNew := .ok (), registerHandler := .ok () }

/-- A client configuration used by the witnesses. -/
def configW : ClientConfig :=
  { dbCacheSize := some 128, dbCompaction := .ssd, dbWal := true, pruning := 0 }

/-- A UTF-8 representable client path used by the witnesses. -/
def pathW : RustPath := { utf8 := some "db" }

/-- A client path with no UTF-8 representation, used by the witnesses. -/
def pathBad : RustPath := { utf8 := none }

/-- Claim C4: start performs its steps in the fixed order: start the runtime;
derive the store configuration (columns from the schema constant, memory
budget from the config cache size, compaction derived from the config at
client_path, write-ahead-log flag from the config) and open the store at
client_path; construct the client, the snapshot service and the private
transactions provider; build and register the dispatcher; register the
engine back-reference; arm the stop guard; and return the aggregate. -/
theorem C4_start_order (env : StartEnv) (config : ClientConfig)
    (clientPath : RustPath) (pathStr : String)
    (hio : env.ioServiceStart = .ok ()) (hpath : clientPath.utf8 = some pathStr)
    (hdb : env.databaseOpen = .ok ()) (hcl : env.clientNew = .ok ())
    (hsn : env.snapshotNew = .ok ()) (hpt : env.privateTxNew = .ok ())
    (hrg : env.registerHandler = .ok ()) :
    (start env config clientPath).trace
      = [.startRuntime,
         .openStore { columns := NUM_COLUMNS,
                      memoryBudget := config.dbCacheSize,
                      compaction := { kind := config.dbCompaction, path := clientPath },
                      wal := config.dbWal } pathStr,
         .constructClient, .constructSnapshot, .constructPrivateTx,
         .buildDispatcher, .registerDispatcher,
         .registerEngineClientRef .weak, .armStopGuard]
    ∧ (start env config clientPath).result
        = .ok { dbConfig := dbConfigOf config clientPath, dbPath := pathStr } := by
  constructor <;> simp [start, hio, hpath, hdb, hcl, hsn, hpt, hrg, dbConfigOf]

/-- Witness for C4 at a concrete environment, configuration and path. -/
theorem C4_start_order_witness :
    (start startEnvOk configW pathW).result
      = .ok { dbConfig := dbConfigOf configW pathW, dbPath := "db" } :=
  (C4_start_order startEnvOk configW pathW "db" rfl rfl rfl rfl rfl rfl rfl).2

/-- Claim C5: every failure of a fallible start step yields a typed error
result (never an aggregate), releasing the resources already constructed in
reverse construction order; and conversely a returned aggregate implies that
every step succeeded. -/
theorem C5_start_failure (env : StartEnv) (config : ClientConfig)
    (clientPath : RustPath) (pathStr : String) (e : String)
    (hpath : clientPath.utf8 = some pathStr) :
    (env.ioServiceStart = .err e →
      (start env config clientPath).result = .failed (.Runtime e)
      ∧ (start env config clientPath).releasedOnFailure = [])
    ∧ (env.ioServiceStart = .ok () → env.databaseOpen = .err e →
      (start env config clientPath).result = .failed (.Database e)
      ∧ (start env config clientPath).releasedOnFailure = [.ioService])
    ∧ (env.ioServiceStart = .ok () → env.databaseOpen = .ok () →
       env.clientNew = .err e →
      (start env config clientPath).result = .failed (.Client e)
      ∧ (start env config clientPath).releasedOnFailure = [.database, .ioService])
    ∧ (env.ioServiceStart = .ok () → env.databaseOpen = .ok () →
       env.clientNew = .ok () → env.snapshotNew = .err e →
      (start env config clientPath).result = .failed (.Snapshot e)
      ∧ (start env config clientPath).releasedOnFailure
          = [.client, .database, .ioService])
    ∧ (env.ioServiceStart = .ok () → env.databaseOpen = .ok () →
       env.clientNew = .ok () → env.snapshotNew = .ok () →
       env.privateTxNew = .err e →
      (start env config clientPath).result = .failed (.PrivateTransactions e)
      ∧ (start env config clientPath).releasedOnFailure
          = [.snapshot, .client, .database, .ioService])
    ∧ (env.ioServiceStart = .ok () → env.databaseOpen = .ok () →
       env.clientNew = .ok () → env.snapshotNew = .ok () →
       env.privateTxNew = .ok () → env.registerHandler = .err e →
      (start env config clientPath).result = .failed (.Runtime e)
      ∧ (start env config clientPath).releasedOnFailure
          = [.privateTx, .snapshot, .client, .database, .ioService])
    ∧ (∀ svc, (start env config clientPath).result = .ok svc → env.allOk) := by
  refine ⟨?_, ?_, ?_, ?_, ?_, ?_, ?_⟩
  · intro h1; constructor <;> simp [start, h1]
  · intro h1 h2; constructor <;> simp [start, h1, h2, hpath]
  · intro h1 h2 h3; constructor <;> simp [start, h1, h2, h3, hpath]
  · intro h1 h2 h3 h4; constructor <;> simp [start, h1, h2, h3, h4, hpath]
  · intro h1 h2 h3 h4 h5; constructor <;> simp [start, h1, h2, h3, h4, h5, hpath]
  · intro h1 h2 h3 h4 h5 h6
    constructor <;> simp [start, h1, h2, h3, h4, h5, h6, hpath]
  · intro svc hsvc
    obtain ⟨io, db, cl, sn, pt, rg⟩ := env
    cases io <;> cases db <;> cases cl <;> cases sn <;> cases pt <;> cases rg <;>
      simp_all [start, StartEnv.allOk, hpath]

/-- Witness for C5 at a concrete failing environment. -/
theorem C5_start_failure_witness :
    (start startEnvDbFail configW pathW).result = .failed (.Database "open boom")
    ∧ (start startEnvDbFail configW pathW).releasedOnFailure = [.ioService] :=
  (C5_start_failure startEnvDbFail configW pathW "db" "open boom" rfl).2.1 rfl rfl

/-- Claim C6: a failing timer registration makes the dispatcher
initialization panic through expect, so the failure is fatal and never
swallowed, and the dispatcher completes initialization (and hence can run)
only with the full timer set registered. -/
theorem C6_timer_registration_fatal (regClient regSnapshot : RustResult Unit) :
    ((initTimers regClient regSnapshot).panicMsg = none ↔
      regClient = .ok () ∧ regSnapshot = .ok ())
    ∧ ((initTimers regClient regSnapshot).panicMsg = none →
      (initTimers regClient regSnapshot).registered
        = [(CLIENT_TICK_TIMER, CLIENT_TICK_MS),
           (SNAPSHOT_TICK_TIMER, SNAPSHOT_TICK_MS)]) := by
  cases regClient <;> cases regSnapshot <;> simp [initTimers]

/-- Witness for C6 at concrete registration outcomes. -/
theorem C6_timer_registration_fatal_witness :
    (initTimers (.ok ()) (.ok ())).registered
      = [(CLIENT_TICK_TIMER, CLIENT_TICK_MS),
         (SNAPSHOT_TICK_TIMER, SNAPSHOT_TICK_MS)] :=
  (C6_timer_registration_fatal (.ok ()) (.ok ())).2 rfl

/-- Claim C7: a completed dispatcher initialization registers exactly two
timers, the client tick with token 0 and period 5000 ms and the snapshot
tick with token 1 and period 10000 ms, each token exactly once. -/
theorem C7_fixed_timers (regClient regSnapshot : RustResult Unit)
    (h : (initTimers regClient regSnapshot).panicMsg = none) :
    (initTimers regClient regSnapshot).registered
      = [(CLIENT_TICK_TIMER, CLIENT_TICK_MS),
         (SNAPSHOT_TICK_TIMER, SNAPSHOT_TICK_MS)]
    ∧ (initTimers regClient regSnapshot).registered.length = 2
    ∧ ((initTimers regClient regSnapshot).registered.map Prod.fst).Nodup
    ∧ CLIENT_TICK_TIMER = 0 ∧ CLIENT_TICK_MS = 5000
    ∧ SNAPSHOT_TICK_TIMER = 1 ∧ SNAPSHOT_TICK_MS = 10000 := by
  cases regClient <;> cases regSnapshot <;>
    simp_all [initTimers, CLIENT_TICK_TIMER, CLIENT_TICK_MS,
      SNAPSHOT_TICK_TIMER, SNAPSHOT_TICK_MS]

/-- Witness for C7 at concrete registration outcomes. -/
theorem C7_fixed_timers_witness :
    (initTimers (.ok ()) (.ok ())).registered.length = 2 :=
  (C7_fixed_timers (.ok ()) (.ok ()) rfl).2.1

/-- Counterexample to C8 as stated: the stop guard is created but never
shared, so its drop notifies nobody (its observer set is empty) and does not
stop the runtime, and in the teardown trace its flag is set only after every
subsystem handle has already been released. -/
theorem C8_counterexample :
    dropEffect ServiceField.stopGuard = [.stopFlagSet []]
    ∧ TeardownEvent.runtimeStopped ∉ dropEffect ServiceField.stopGuard
    ∧ stopGuardObservers = []
    ∧ dropTrace
      = [.runtimeStopped, .released .client, .released .snapshot,
         .released .privateTx, .released .database, .stopFlagSet []] := by
  decide

/-- Claim C8 as amended: on destruction of the aggregate the runtime is
stopped strictly before any shared subsystem handle is released, because the
runtime handle is the first declared field and Rust drops fields in
declaration order; the stop guard itself triggers nothing (it is never
shared) and is dropped last. -/
theorem C8_amended_teardown_order :
    dropTrace
      = [.runtimeStopped, .released .client, .released .snapshot,
         .released .privateTx, .released .database,
         .stopFlagSet stopGuardObservers]
    ∧ dropTrace.head? = some .runtimeStopped
    ∧ dropTrace.getLast? = some (.stopFlagSet stopGuardObservers)
    ∧ dropTrace.indexOf (.released .client) > dropTrace.indexOf .runtimeStopped
    ∧ dropTrace.indexOf (.released .snapshot) > dropTrace.indexOf .runtimeStopped
    ∧ dropTrace.indexOf (.released .privateTx) > dropTrace.indexOf .runtimeStopped
    ∧ dropTrace.indexOf (.released .database) > dropTrace.indexOf .runtimeStopped := by
  decide

/-- Claim C9: the back-reference start registers with the engine is the
downgraded, non-owning kind, never a strong one; every reference the engine
holds on the client is weak, and weak references alone do not keep the
client alive. -/
theorem C9_weak_engine_backref (env : StartEnv) (config : ClientConfig)
    (clientPath : RustPath) (pathStr : String)
    (hio : env.ioServiceStart = .ok ()) (hpath : clientPath.utf8 = some pathStr)
    (hdb : env.databaseOpen = .ok ()) (hcl : env.clientNew = .ok ())
    (hsn : env.snapshotNew = .ok ()) (hpt : env.privateTxNew = .ok ())
    (hrg : env.registerHandler = .ok ()) :
    StartStep.registerEngineClientRef .weak ∈ (start env config clientPath).trace
    ∧ StartStep.registerEngineClientRef .strong ∉ (start env config clientPath).trace
    ∧ ((clientRefs.filter fun r => r.1 == Holder.engine).all
        fun r => r.2 == RefKind.weak) = true
    ∧ keepsAlive (clientRefs.filter fun r => r.1 == Holder.engine) = false := by
  refine ⟨?_, ?_, by decide, by decide⟩ <;>
    simp [start, hio, hpath, hdb, hcl, hsn, hpt, hrg]

/-- Witness for C9 at a concrete environment, configuration and path. -/
theorem C9_weak_engine_backref_witness :
    StartStep.registerEngineClientRef .weak ∈ (start startEnvOk configW pathW).trace :=
  (C9_weak_engine_backref startEnvOk configW pathW "db" rfl rfl rfl rfl rfl rfl rfl).1

/-- Claim C10: when the client path has no UTF-8 representation, start
panics through the expect on the path conversion instead of returning an
error; when the path is representable and the store open fails, start
returns the typed Database error. -/
theorem C10_nonutf8_path_panics (env : StartEnv) (config : ClientConfig)
    (clientPath : RustPath) (hio : env.ioServiceStart = .ok ()) :
    (clientPath.utf8 = none →
      (start env config clientPath).result
        = .panicked "DB path could not be converted to string.")
    ∧ (∀ pathStr e, clientPath.utf8 = some pathStr → env.databaseOpen = .err e →
      (start env config clientPath).result = .failed (.Database e)) := by
  constructor
  · intro h; simp [start, hio, h]
  · intro pathStr e hp hd; simp [start, hio, hp, hd]

/-- Witness for C10 at concrete environments and paths. -/
theorem C10_nonutf8_path_panics_witness :
    (start startEnvOk configW pathBad).result
      = .panicked "DB path could not be converted to string."
    ∧ (start startEnvDbFail configW pathW).result = .failed (.Database "open boom") :=
  ⟨(C10_nonutf8_path_panics startEnvOk configW pathBad rfl).1 rfl,
   (C10_nonutf8_path_panics startEnvDbFail configW pathW rfl).2 "db" "open boom" rfl rfl⟩

end ParityService
